import Mathlib

/-!
Shallow embedding of the collector-matching / job-dispatch core of the
mbalit waste-pickup app, together with proofs checking the natural-language
specification against the code.

Sources embedded here:
  * `src/unnamed/part_011` (maps library): `calculateDistance` (haversine),
    `toRad`.
  * `src/unnamed/part_009` (firestore library): `getPickupRequest`,
    `updateRequestStatus`, `getAvailableCollectors`, `findNearestCollector`,
    `assignCollectorToRequest`, `createPayment`, `withdrawFromWallet`.
  * `src/lib/realtime.ts` (realtime-database library and the matching module
    bundled with it): `updateJobStatus`, `assignCollectorToJob`,
    `clearCollectorActiveJob`, `autoMatchCollector`, `retryMatch`.
  * `src/unnamed/part_008` (collector dashboard): `handleAcceptJob`,
    `handleCompleteJob`.

Modelling conventions: JavaScript numbers used as geographic coordinates and
distances are embedded as real numbers (the arithmetic is transcendental);
money amounts (prices, wallet balances) are embedded as rationals, whose
additions, subtractions and comparisons mirror the source exactly.  Firestore
and Realtime-Database state is passed explicitly: each `async` mutator of the
source becomes a function from state to state (paired with its return value
when it has one).  `serverTimestamp()` is modelled by a `now : Nat` field of
the state.  Firestore `updateDoc` on an absent document is modelled as a
no-op map over the stored list; the claims only concern documents that exist.
-/

namespace Mbalit

/- Closed enumerations from `src/types/index.ts`. -/

inductive Role where
  | customer
  | collector
deriving DecidableEq

inductive WasteType where
  | household
  | kitchen
  | chemical
  | electronic
  | construction
  | garden
  | medical
  | recyclable
deriving DecidableEq

inductive WasteSize where
  | small
  | medium
  | large
  | extraLarge
deriving DecidableEq

/-- Request status from `src/types/index.ts` (note: no `accepted` state). -/
inductive RequestStatus where
  | pending
  | assigned
  | in_progress
  | arrived
  | completed
  | cancelled
deriving DecidableEq

/-- Payment status from `src/types/index.ts`. -/
inductive PaymentStatus where
  | pending
  | processing
  | completed
  | failed
  | refunded
deriving DecidableEq

/-- Realtime job status from `src/lib/realtime.ts` (note: no `arrived`). -/
inductive JobStatus where
  | pending
  | assigned
  | accepted
  | in_progress
  | completed
  | cancelled
deriving DecidableEq

/-- Realtime job payment status from `src/lib/realtime.ts`. -/
inductive PayStatus where
  | pending
  | paid
  | failed
deriving DecidableEq

/-- GeoLocation from `src/types/index.ts`; `lat`/`lng` are JS numbers. -/
structure GeoLocation where
  lat : ℝ
  lng : ℝ
  address : Option String := none
  formattedAddress : Option String := none

/- ===== Distance estimator, from `src/unnamed/part_011` (maps). ===== -/

/-- Degree-to-radian conversion, `toRad` in the source. -/
noncomputable def toRad (deg : ℝ) : ℝ :=
  deg * (Real.pi / 180)

/-- The two-argument arctangent `Math.atan2(y, x)` of the JS runtime. -/
noncomputable def atan2 (y x : ℝ) : ℝ :=
  if 0 < x then Real.arctan (y / x)
  else if x < 0 then
    (if 0 ≤ y then Real.arctan (y / x) + Real.pi
     else Real.arctan (y / x) - Real.pi)
  else
    (if 0 < y then Real.pi / 2
     else if y < 0 then -(Real.pi / 2)
     else 0)

/-- The intermediate value `a` of `calculateDistance` in the source. -/
noncomputable def haversineA (lat1 lng1 lat2 lng2 : ℝ) : ℝ :=
  Real.sin (toRad (lat2 - lat1) / 2) * Real.sin (toRad (lat2 - lat1) / 2) +
    Real.cos (toRad lat1) * Real.cos (toRad lat2) *
      Real.sin (toRad (lng2 - lng1) / 2) * Real.sin (toRad (lng2 - lng1) / 2)

/-- Haversine distance in km, `calculateDistance` in the source
(Earth radius 6371 km). -/
noncomputable def calculateDistance (lat1 lng1 lat2 lng2 : ℝ) : ℝ :=
  let R : ℝ := 6371
  let a := haversineA lat1 lng1 lat2 lng2
  let c := 2 * atan2 (Real.sqrt a) (Real.sqrt (1 - a))
  R * c

lemma toRad_sub_swap (x y : ℝ) : toRad (x - y) = -toRad (y - x) := by
  unfold toRad; ring

lemma sin_half_swap (x y : ℝ) :
    Real.sin (toRad (x - y) / 2) = -Real.sin (toRad (y - x) / 2) := by
  rw [toRad_sub_swap x y, neg_div, Real.sin_neg]

lemma haversineA_symm (lat1 lng1 lat2 lng2 : ℝ) :
    haversineA lat1 lng1 lat2 lng2 = haversineA lat2 lng2 lat1 lng1 := by
  unfold haversineA
  rw [sin_half_swap lat2 lat1, sin_half_swap lng2 lng1]
  ring

lemma haversineA_self (lat lng : ℝ) : haversineA lat lng lat lng = 0 := by
  unfold haversineA
  simp [toRad]

lemma atan2_zero_one : atan2 0 1 = 0 := by
  unfold atan2
  norm_num

/- ===== Firestore data model, from `src/types/index.ts` and the document
shapes written by `src/unnamed/part_009`. ===== -/

/-- A document of the `users` collection as mapped to a `Collector` by
`getAvailableCollectors` in `src/unnamed/part_009`; also carries the
`currentRequestId` field written by `assignCollectorToRequest`. -/
structure Collector where
  id : String
  email : String := ""
  name : String := ""
  phone : String := ""
  role : Role := Role.collector
  wasteTypesHandled : List WasteType
  isAvailable : Bool
  currentLocation : Option GeoLocation
  currentRequestId : Option String := none
  rating : ℚ := 0
  totalPickups : ℚ := 0
  earnings : ℚ := 0

/-- A document of the `requests` collection (`PickupRequest` in
`src/types/index.ts`, fields as written by `createPickupRequest`,
`assignCollectorToRequest` and `updateRequestStatus`).  Note: the type has
no payment-status field at all. -/
structure PickupRequest where
  id : String
  customerId : String
  collectorId : Option String := none
  wasteType : WasteType
  wasteSize : WasteSize := WasteSize.small
  pickupLocation : GeoLocation
  estimatedPrice : ℚ := 0
  finalPrice : Option ℚ := none
  distance : Option ℝ := none
  status : RequestStatus
  cancelReason : Option String := none
  createdAt : Nat := 0
  assignedAt : Option Nat := none
  completedAt : Option Nat := none
  updatedAt : Option Nat := none

/-- A document of the `payments` collection as written by `createPayment`. -/
structure Payment where
  id : String
  requestId : String
  customerId : String
  collectorId : String
  amount : ℚ
  currency : String := "GMD"
  status : PaymentStatus
  method : String
  transactionId : Option String := none
  createdAt : Nat := 0

/-- A document of the `wallets` collection. -/
structure Wallet where
  balance : ℚ
  currency : String := "GMD"
deriving DecidableEq

/-- A document of the `walletTransactions` collection. -/
structure WalletTransaction where
  id : String
  walletId : String
  type : String
  amount : ℚ
  description : String := ""
  paymentMethod : Option String := none
  phoneNumber : Option String := none
  status : Option String := none
  balanceAfter : ℚ
  transactionId : Option String := none
  createdAt : Nat := 0

/-- The Firestore state touched by the embedded functions.  `now` stands for
`serverTimestamp()`; `nextId` generates fresh document ids. -/
structure FS where
  requests : List PickupRequest
  users : List Collector
  payments : List Payment := []
  wallets : List (String × Wallet) := []
  walletTransactions : List WalletTransaction := []
  now : Nat := 0
  nextId : Nat := 0

/- ===== Firestore operations, from `src/unnamed/part_009`. ===== -/

/-- `getPickupRequest`: read a request document by id (null when absent). -/
def getPickupRequest (requestId : String) (fs : FS) : Option PickupRequest :=
  fs.requests.find? (fun r => r.id == requestId)

/-- `updateRequestStatus`: write a new status (plus `updatedAt`, and
`assignedAt` / `completedAt` for those statuses).  The only `additionalData`
ever passed by the in-scope callers is a `cancelReason`, modelled here as the
optional third argument. -/
def updateRequestStatus (requestId : String) (status : RequestStatus)
    (cancelReason : Option String) (fs : FS) : FS :=
  { fs with requests := fs.requests.map (fun r =>
      if r.id == requestId then
        { r with
          status := status
          updatedAt := some fs.now
          cancelReason := match cancelReason with
            | some s => some s
            | none => r.cancelReason
          assignedAt := if status == RequestStatus.assigned
            then some fs.now else r.assignedAt
          completedAt := if status == RequestStatus.completed
            then some fs.now else r.completedAt }
      else r) }

/-- `getAvailableCollectors`: the `users` query
`role == collector && isAvailable == true && wasteTypesHandled contains wt`. -/
def getAvailableCollectors (wasteType : WasteType) (users : List Collector) :
    List Collector :=
  users.filter (fun u =>
    u.role == Role.collector && u.isAvailable &&
      u.wasteTypesHandled.contains wasteType)

/-- One iteration of the `for (const collector of collectors)` loop of
`findNearestCollector`. -/
noncomputable def findNearestStep (customerLocation : GeoLocation)
    (nearest : Option (Collector × ℝ)) (collector : Collector) :
    Option (Collector × ℝ) :=
  match collector.currentLocation with
  | none => nearest
  | some loc =>
    let distance := calculateDistance customerLocation.lat customerLocation.lng
      loc.lat loc.lng
    match nearest with
    | none => some (collector, distance)
    | some (n, nd) =>
      if distance < nd then some (collector, distance) else some (n, nd)

/-- `findNearestCollector`: scan the available collectors keeping the
strictly closest one seen so far (collectors without a reported location are
skipped). -/
noncomputable def findNearestCollector (customerLocation : GeoLocation)
    (wasteType : WasteType) (users : List Collector) :
    Option (Collector × ℝ) :=
  let collectors := getAvailableCollectors wasteType users
  if collectors.length = 0 then none
  else collectors.foldl (findNearestStep customerLocation) none

/-- `assignCollectorToRequest`: unconditionally writes the assignment onto
the request and flips the collector's availability.  There is no check that
the collector is still free. -/
def assignCollectorToRequest (requestId collectorId : String) (distance : ℝ)
    (fs : FS) : FS :=
  { fs with
    requests := fs.requests.map (fun r =>
      if r.id == requestId then
        { r with
          collectorId := some collectorId
          distance := some distance
          status := RequestStatus.assigned
          assignedAt := some fs.now
          updatedAt := some fs.now }
      else r)
    users := fs.users.map (fun u =>
      if u.id == collectorId then
        { u with isAvailable := false, currentRequestId := some requestId }
      else u) }

/-- `createPayment`: append a pending payment document. -/
def createPayment (requestId customerId collectorId : String) (amount : ℚ)
    (method : String) (fs : FS) : String × FS :=
  let paymentId := "p" ++ toString fs.nextId
  (paymentId,
    { fs with
      payments := fs.payments ++ [{
        id := paymentId
        requestId := requestId
        customerId := customerId
        collectorId := collectorId
        amount := amount
        status := PaymentStatus.pending
        method := method
        createdAt := fs.now }]
      nextId := fs.nextId + 1 })

/-- Result record of `withdrawFromWallet`. -/
structure WithdrawResult where
  success : Bool
  error : Option String := none
  transactionId : Option String := none
deriving DecidableEq

/-- `withdrawFromWallet`: checks, in order, wallet existence, sufficient
balance, and the 50 GMD minimum; on success debits the wallet and records a
`withdraw` transaction. -/
def withdrawFromWallet (collectorId : String) (amount : ℚ)
    (paymentMethod phoneNumber : String) (fs : FS) : WithdrawResult × FS :=
  match fs.wallets.lookup collectorId with
  | none => ({ success := false, error := some "Wallet not found" }, fs)
  | some wallet =>
    let currentBalance := wallet.balance
    if amount > currentBalance then
      ({ success := false, error := some "Insufficient balance" }, fs)
    else if amount < 50 then
      ({ success := false, error := some "Minimum withdrawal is 50 GMD" }, fs)
    else
      let newBalance := currentBalance - amount
      let transactionId := "wt" ++ toString fs.nextId
      ({ success := true, transactionId := some transactionId },
        { fs with
          wallets := fs.wallets.map (fun p =>
            if p.1 == collectorId then (p.1, { p.2 with balance := newBalance })
            else p)
          walletTransactions := fs.walletTransactions ++ [{
            id := transactionId
            walletId := collectorId
            type := "withdraw"
            amount := -amount
            description := "Withdrawal to " ++ paymentMethod ++ " (" ++
              phoneNumber ++ ")"
            paymentMethod := some paymentMethod
            phoneNumber := some phoneNumber
            status := some "pending"
            balanceAfter := newBalance
            createdAt := fs.now }]
          nextId := fs.nextId + 1 })

/- ===== Realtime-database model and operations, from `src/lib/realtime.ts`.
The `collectors/{id}/activeJob` paths are modelled as a total map from
collector id to optional job id, matching the create-on-write semantics of
`set`. ===== -/

/-- A job record of the realtime database (`RealtimeJob` in
`src/lib/realtime.ts`). -/
structure RealtimeJob where
  id : String
  customerId : String := ""
  customerEmail : String := ""
  customerPhone : String := ""
  collectorId : Option String := none
  collectorName : Option String := none
  collectorPhone : Option String := none
  wasteType : String := ""
  wasteSize : String := ""
  pickupLocation : GeoLocation
  plusCode : Option String := none
  manualAddress : Option String := none
  amount : ℚ
  paymentStatus : PayStatus
  paymentIntentId : Option String := none
  status : JobStatus
  createdAt : Nat := 0
  assignedAt : Option Nat := none
  completedAt : Option Nat := none

/-- The realtime-database state touched by the embedded functions. -/
structure RTDB where
  jobs : List RealtimeJob
  activeJob : String → Option String
  now : Nat := 0

/-- `updateJobStatus`: writes the requested status onto the job (plus
`completedAt` when the new status is `completed`).  There is no validation
of the transition and no error path: the job record is simply overwritten.
The in-scope callers pass no `additionalData`. -/
def updateJobStatus (jobId : String) (status : JobStatus) (db : RTDB) :
    RTDB :=
  { db with jobs := db.jobs.map (fun j =>
      if j.id == jobId then
        { j with
          status := status
          completedAt := if status == JobStatus.completed
            then some db.now else j.completedAt }
      else j) }

/-- `assignCollectorToJob`: unconditionally writes the assignment onto the
job and then overwrites `collectors/{collectorId}/activeJob` with the new
job id.  There is no check that `activeJob` was null. -/
def assignCollectorToJob (jobId collectorId : String) (db : RTDB) : RTDB :=
  let db1 : RTDB := { db with jobs := db.jobs.map (fun j =>
      if j.id == jobId then
        { j with
          collectorId := some collectorId
          status := JobStatus.assigned
          assignedAt := some db.now }
      else j) }
  { db1 with activeJob := fun c =>
      if c == collectorId then some jobId else db1.activeJob c }

/-- `clearCollectorActiveJob`: set `collectors/{collectorId}/activeJob`
to null. -/
def clearCollectorActiveJob (collectorId : String) (db : RTDB) : RTDB :=
  { db with activeJob := fun c =>
      if c == collectorId then none else db.activeJob c }

/- ===== The matching module bundled into `src/lib/realtime.ts`
(`autoMatchCollector`, `retryMatch`, `calculateMatchPrice`). ===== -/

/-- Result record of one matching attempt (`MatchResult` in the source). -/
structure MatchResult where
  success : Bool
  collector : Option Collector := none
  distance : Option ℝ := none
  estimatedArrival : Option String := none
  error : Option String := none

/-- JavaScript `Math.round`. -/
noncomputable def jsRound (x : ℝ) : ℤ :=
  ⌊x + 1 / 2⌋

/-- `autoMatchCollector`: find the nearest available collector handling the
waste type; if found, assign it to the request and report the match together
with an arrival estimate at 30 km/h.  (In the arrival string, `Math.floor`
and `%` coincide with integer division and remainder for the non-negative
minute counts that arise.) -/
noncomputable def autoMatchCollector (requestId : String)
    (customerLocation : GeoLocation) (wasteType : WasteType) (fs : FS) :
    MatchResult × FS :=
  match findNearestCollector customerLocation wasteType fs.users with
  | none =>
    ({ success := false
       error := some "No collectors available for this waste type right now" },
      fs)
  | some (collector, distance) =>
    let fs1 := assignCollectorToRequest requestId collector.id distance fs
    let estimatedMinutes : ℤ := jsRound (distance / 30 * 60)
    let estimatedArrival :=
      if estimatedMinutes < 60 then toString estimatedMinutes ++ " min"
      else toString (estimatedMinutes / 60) ++ "h " ++
        toString (estimatedMinutes % 60) ++ "m"
    ({ success := true
       collector := some collector
       distance := some distance
       estimatedArrival := some estimatedArrival },
      fs1)

/-- The `for (let i = 0; i < maxRetries; i++)` loop of `retryMatch`, run with
`n` remaining iterations.  Besides the source's result and the final state it
returns, for analysis, the number of matching attempts performed and the list
of inter-attempt delays awaited (each `await setTimeout(retryDelayMs)` of the
source is recorded as its duration). -/
noncomputable def retryAttempts (requestId : String)
    (pickupLocation : GeoLocation) (wasteType : WasteType)
    (retryDelayMs : ℕ) : ℕ → FS → Option MatchResult × FS × ℕ × List ℕ
  | 0, fs => (none, fs, 0, [])
  | n + 1, fs =>
    let step := autoMatchCollector requestId pickupLocation wasteType fs
    if step.1.success then (some step.1, step.2, 1, [])
    else if n = 0 then (none, step.2, 1, [])
    else
      let rest := retryAttempts requestId pickupLocation wasteType
        retryDelayMs n step.2
      (rest.1, rest.2.1, rest.2.2.1 + 1, retryDelayMs :: rest.2.2.2)

/-- `retryMatch`: load the request; unless it exists and is still `pending`,
fail with "Request not found or already processed"; otherwise run up to
`maxRetries` matching attempts (reference call sites use 3 attempts and a
30000 ms delay), and if none succeeds cancel the request with reason
"No collectors available after multiple attempts". -/
noncomputable def retryMatch (requestId : String)
    (maxRetries retryDelayMs : ℕ) (fs : FS) : MatchResult × FS :=
  match getPickupRequest requestId fs with
  | none =>
    ({ success := false
       error := some "Request not found or already processed" }, fs)
  | some request =>
    if request.status == RequestStatus.pending then
      let run := retryAttempts requestId request.pickupLocation
        request.wasteType retryDelayMs maxRetries fs
      match run.1 with
      | some m => (m, run.2.1)
      | none =>
        let fs2 := updateRequestStatus requestId RequestStatus.cancelled
          (some "No collectors available after multiple attempts") run.2.1
        ({ success := false
           error := some "No collectors available. Please try again later." },
          fs2)
    else
      ({ success := false
         error := some "Request not found or already processed" }, fs)

/-- `calculateMatchPrice`: base price plus a per-km cost, rounded. -/
noncomputable def calculateMatchPrice (basePrice : ℝ) (distanceKm : ℝ)
    (perKmRate : ℝ) : ℤ :=
  jsRound (basePrice + distanceKm * perKmRate)

/- ===== The collector dashboard component state and handlers, from
`src/unnamed/part_008`.  The React `useState` cells referenced by the two
handlers are gathered into one record; `setSize` and other pure-UI effects
are not modelled. ===== -/

/-- The dashboard component state (subset touched by the job handlers). -/
structure DashboardState where
  rtdb : RTDB
  fs : FS
  isOnline : Bool := false
  walletBalance : ℚ := 0
  activeJob : Option RealtimeJob := none
  incomingJob : Option RealtimeJob := none
  pendingJobs : List RealtimeJob := []
  remainingCapacity : ℚ := 100

/-- `handleAcceptJob`: assign the incoming job to this collector and mark it
accepted.  No transition or payment check is performed. -/
def handleAcceptJob (collectorId : String) (st : DashboardState) :
    DashboardState :=
  match st.incomingJob with
  | none => st
  | some job =>
    let db1 := assignCollectorToJob job.id collectorId st.rtdb
    let db2 := updateJobStatus job.id JobStatus.accepted db1
    { st with
      rtdb := db2
      activeJob := some { job with
        collectorId := some collectorId
        status := JobStatus.accepted }
      incomingJob := none }

/-- `handleCompleteJob`: mark the active job completed, clear
`collectors/{id}/activeJob`, and bump the in-memory `walletBalance` display
state by the job amount.  No Firestore function is invoked: in particular
`creditWallet` is never called. -/
def handleCompleteJob (collectorId : String) (st : DashboardState) :
    DashboardState :=
  match st.activeJob with
  | none => st
  | some job =>
    let db1 := updateJobStatus job.id JobStatus.completed st.rtdb
    let db2 := clearCollectorActiveJob collectorId db1
    { st with
      rtdb := db2
      walletBalance := st.walletBalance + job.amount
      remainingCapacity := max 0 (st.remainingCapacity - 20)
      activeJob := none }

/- ===== Helper lemmas. ===== -/

lemma lookup_map_update (l : List (String × Wallet)) (k : String)
    (f : Wallet → Wallet) :
    (l.map (fun p => if p.1 == k then (p.1, f p.2) else p)).lookup k =
      (l.lookup k).map f := by
  induction l with
  | nil => rfl
  | cons p l ih =>
    obtain ⟨pk, pv⟩ := p
    by_cases h : pk = k
    · subst h
      simp [List.lookup_cons, ih]
    · have hb : (pk == k) = false := by simp [h]
      have hb2 : (k == pk) = false := by
        simp only [beq_eq_false_iff_ne, ne_eq]
        exact fun hk => h hk.symm
      simp only [List.map_cons]
      rw [if_neg (by simp [hb] : ¬((pk == k) = true))]
      rw [List.lookup_cons, List.lookup_cons]
      simp only [hb2]
      simpa using ih

/- ===== Claim C8 ===== -/

/-- Claim C8: the haversine `calculateDistance` is exactly symmetric in its
two coordinate pairs, and the distance from a point to itself is exactly 0
(real-number semantics of the JS arithmetic). -/
theorem calculateDistance_symm_self :
    (∀ lat1 lng1 lat2 lng2 : ℝ,
      calculateDistance lat1 lng1 lat2 lng2 =
        calculateDistance lat2 lng2 lat1 lng1) ∧
    (∀ lat lng : ℝ, calculateDistance lat lng lat lng = 0) := by
  constructor
  · intro lat1 lng1 lat2 lng2
    simp only [calculateDistance]
    rw [haversineA_symm]
  · intro lat lng
    simp only [calculateDistance, haversineA_self]
    rw [Real.sqrt_zero, sub_zero, Real.sqrt_one, atan2_zero_one]
    ring

/- ===== Claim C5 ===== -/

/-- Claim C5 (amended): `updateJobStatus` performs no transition validation
and has no error path: for every job record and every requested status, the
targeted job's status field is simply overwritten with the requested value —
including transitions out of the terminal states `completed` and
`cancelled`. -/
theorem updateJobStatus_unvalidated (db : RTDB) (jobId : String)
    (status : JobStatus) :
    ∀ j ∈ (updateJobStatus jobId status db).jobs,
      j.id = jobId → j.status = status := by
  intro j hj hid
  simp only [updateJobStatus, List.mem_map] at hj
  obtain ⟨j0, _, rfl⟩ := hj
  by_cases h : j0.id = jobId
  · simp [h]
  · have hb : (j0.id == jobId) = false := by simp [h]
    rw [if_neg (by simp [hb])] at hid ⊢
    exact absurd hid h

/-- A minimal realtime job record used in concrete examples. -/
def mkJob (id : String) (status : JobStatus) (amount : ℚ)
    (collectorId : Option String) : RealtimeJob :=
  { id := id
    pickupLocation := { lat := 0, lng := 0 }
    amount := amount
    paymentStatus := PayStatus.paid
    status := status
    collectorId := collectorId }

/-- Concrete realtime database for the C5 example: one completed job. -/
def dbC5 : RTDB :=
  { jobs := [mkJob "j1" JobStatus.completed 0 none]
    activeJob := fun _ => none }

/-- The record `updateJobStatus` produces for that job in the C5 example. -/
def jdC5 : RealtimeJob :=
  { mkJob "j1" JobStatus.completed 0 none with status := JobStatus.in_progress }

/-- Claim C5 counterexample: a job in the terminal state `completed` does not
reject a further transition — `updateJobStatus` silently moves it to
`in_progress` (no `InvalidTransition` error exists in the code). -/
theorem updateJobStatus_terminal_cx :
    (updateJobStatus "j1" JobStatus.in_progress dbC5).jobs.map
        (fun j => j.status) = [JobStatus.in_progress] ∧
      dbC5.jobs.map (fun j => j.status) = [JobStatus.completed] := by
  constructor <;> rfl

/-- Claim C5 witness: the amended theorem applied to the concrete completed
job, whose status is overwritten to `in_progress`. -/
theorem updateJobStatus_unvalidated_witness :
    (jdC5 ∈ (updateJobStatus "j1" JobStatus.in_progress dbC5).jobs ∧
      jdC5.id = "j1") ∧
    jdC5.status = JobStatus.in_progress :=
  ⟨⟨by simp [updateJobStatus, dbC5, jdC5, mkJob], rfl⟩,
    updateJobStatus_unvalidated dbC5 "j1" JobStatus.in_progress jdC5
      (by simp [updateJobStatus, dbC5, jdC5, mkJob]) rfl⟩

/- ===== Claim C1 ===== -/

/-- Claim C1 (amended): the claim-for operations are unconditional writes
with no already-busy guard: `assignCollectorToJob` overwrites
`collectors/{id}/activeJob` with the new job id regardless of its previous
value, and `assignCollectorToRequest` marks the collector unavailable with
`currentRequestId` pointing at the new request regardless of its previous
assignment; neither can fail or leave the state unchanged. -/
theorem assignCollector_unconditional :
    (∀ (db : RTDB) (jobId collectorId : String),
      (assignCollectorToJob jobId collectorId db).activeJob collectorId =
        some jobId) ∧
    (∀ (fs : FS) (requestId collectorId : String) (distance : ℝ),
      ∀ u ∈ (assignCollectorToRequest requestId collectorId distance fs).users,
        u.id = collectorId →
          u.isAvailable = false ∧ u.currentRequestId = some requestId) := by
  constructor
  · intro db jobId collectorId
    simp [assignCollectorToJob]
  · intro fs requestId collectorId distance u hu hid
    simp only [assignCollectorToRequest, List.mem_map] at hu
    obtain ⟨u0, _, rfl⟩ := hu
    by_cases h : u0.id = collectorId
    · simp [h]
    · have hb : (u0.id == collectorId) = false := by simp [h]
      rw [if_neg (by simp [hb])] at hid ⊢
      exact absurd hid h

/-- A minimal collector record used in concrete examples. -/
def mkCollector (id : String) (wts : List WasteType) (avail : Bool)
    (loc : Option GeoLocation) : Collector :=
  { id := id
    wasteTypesHandled := wts
    isAvailable := avail
    currentLocation := loc }

/-- Concrete realtime database for the C1 example: collector `c1` is already
busy with job `j0`. -/
def dbC1 : RTDB :=
  { jobs := [mkJob "j1" JobStatus.pending 0 none]
    activeJob := fun c => if c == "c1" then some "j0" else none }

/-- Concrete Firestore state for the C1 example: collector `c1` is already
assigned to request `r0` and marked unavailable. -/
def fsC1 : FS :=
  { requests := []
    users := [{ mkCollector "c1" [WasteType.household] false none with
      currentRequestId := some "r0" }] }

/-- The collector record `assignCollectorToRequest` produces in the C1
example. -/
def uC1 : Collector :=
  { mkCollector "c1" [WasteType.household] false none with
    isAvailable := false
    currentRequestId := some "r1" }

/-- Claim C1 counterexample: collector `c1` already has active job `j0`, yet
`assignCollectorToJob` neither fails nor leaves the state unchanged — it
overwrites the active job with `j1`.  The same absence of a guard holds for
`assignCollectorToRequest`, which silently repoints the busy collector's
`currentRequestId` from `r0` to `r1`. -/
theorem assignCollectorToJob_overwrites_busy_cx :
    dbC1.activeJob "c1" = some "j0" ∧
    (assignCollectorToJob "j1" "c1" dbC1).activeJob "c1" = some "j1" ∧
    assignCollectorToJob "j1" "c1" dbC1 ≠ dbC1 ∧
    ((assignCollectorToRequest "r1" "c1" 0 fsC1).users.map
      (fun u => u.currentRequestId)) = [some "r1"] := by
  refine ⟨rfl, by simp [assignCollectorToJob, dbC1], ?_, ?_⟩
  · intro h
    have h2 := congrArg (fun s => RTDB.activeJob s "c1") h
    simp [assignCollectorToJob, dbC1] at h2
  · simp [assignCollectorToRequest, fsC1, mkCollector]

/-- Claim C1 witness: the amended theorem applied to the busy collector
`c1`. -/
theorem assignCollector_unconditional_witness :
    ((assignCollectorToJob "j1" "c1" dbC1).activeJob "c1" = some "j1") ∧
    (uC1 ∈ (assignCollectorToRequest "r1" "c1" 0 fsC1).users ∧
      uC1.id = "c1") ∧
    (uC1.isAvailable = false ∧ uC1.currentRequestId = some "r1") :=
  ⟨assignCollector_unconditional.1 dbC1 "j1" "c1",
    ⟨by simp [assignCollectorToRequest, fsC1, uC1, mkCollector], rfl⟩,
    assignCollector_unconditional.2 fsC1 "r1" "c1" 0 uC1
      (by simp [assignCollectorToRequest, fsC1, uC1, mkCollector]) rfl⟩

/- ===== Claim C10 ===== -/

/-- Claim C10: `withdrawFromWallet` succeeds exactly when a wallet exists,
the amount is within the stored balance, and the amount is at least 50 GMD;
on failure the state is unchanged and one of the three error messages is
returned; on success the stored balance becomes the old balance minus the
amount (never negative) and a `withdraw` transaction is recorded whose
`balanceAfter` equals the new balance. -/
theorem withdrawFromWallet_spec (fs : FS) (collectorId : String) (amount : ℚ)
    (paymentMethod phoneNumber : String) :
    ((withdrawFromWallet collectorId amount paymentMethod phoneNumber
        fs).1.success = true ↔
      ∃ w, fs.wallets.lookup collectorId = some w ∧
        amount ≤ w.balance ∧ 50 ≤ amount) ∧
    ((withdrawFromWallet collectorId amount paymentMethod phoneNumber
        fs).1.success = false →
      (withdrawFromWallet collectorId amount paymentMethod phoneNumber
          fs).2 = fs ∧
        ((withdrawFromWallet collectorId amount paymentMethod phoneNumber
            fs).1.error = some "Wallet not found" ∨
         (withdrawFromWallet collectorId amount paymentMethod phoneNumber
            fs).1.error = some "Insufficient balance" ∨
         (withdrawFromWallet collectorId amount paymentMethod phoneNumber
            fs).1.error = some "Minimum withdrawal is 50 GMD")) ∧
    (∀ w, fs.wallets.lookup collectorId = some w →
      (withdrawFromWallet collectorId amount paymentMethod phoneNumber
          fs).1.success = true →
      (withdrawFromWallet collectorId amount paymentMethod phoneNumber
          fs).2.wallets.lookup collectorId =
            some { w with balance := w.balance - amount } ∧
        0 ≤ w.balance - amount ∧
        ∃ t, (withdrawFromWallet collectorId amount paymentMethod phoneNumber
            fs).2.walletTransactions = fs.walletTransactions ++ [t] ∧
          t.type = "withdraw" ∧ t.walletId = collectorId ∧
          t.amount = -amount ∧ t.balanceAfter = w.balance - amount) := by
  rcases hw : fs.wallets.lookup collectorId with _ | w
  · refine ⟨?_, ?_, ?_⟩
    · simp [withdrawFromWallet, hw]
    · intro _
      simp [withdrawFromWallet, hw]
    · intro w hw2
      exact absurd hw2 (by simp)
  · by_cases hins : amount > w.balance
    · refine ⟨?_, ?_, ?_⟩
      · simp only [withdrawFromWallet, hw, if_pos hins]
        constructor
        · intro h
          exact absurd h (by simp)
        · rintro ⟨w2, hw2, hle, _⟩
          injection hw2 with hw3
          subst hw3
          exact absurd hle (not_le.mpr hins)
      · intro _
        simp [withdrawFromWallet, hw, if_pos hins]
      · intro w2 _ hsuc
        simp only [withdrawFromWallet, hw, if_pos hins] at hsuc
        exact absurd hsuc (by simp)
    · by_cases hmin : amount < 50
      · refine ⟨?_, ?_, ?_⟩
        · simp only [withdrawFromWallet, hw, if_neg hins, if_pos hmin]
          constructor
          · intro h
            exact absurd h (by simp)
          · rintro ⟨w2, hw2, _, hge⟩
            exact absurd hge (not_le.mpr hmin)
        · intro _
          simp [withdrawFromWallet, hw, if_neg hins, if_pos hmin]
        · intro w2 _ hsuc
          simp only [withdrawFromWallet, hw, if_neg hins, if_pos hmin]
            at hsuc
          exact absurd hsuc (by simp)
      · refine ⟨?_, ?_, ?_⟩
        · simp only [withdrawFromWallet, hw, if_neg hins, if_neg hmin]
          constructor
          · intro _
            exact ⟨w, rfl, not_lt.mp hins, not_lt.mp hmin⟩
          · intro _
            trivial
        · intro hfail
          simp only [withdrawFromWallet, hw, if_neg hins, if_neg hmin]
            at hfail
          exact absurd hfail (by simp)
        · intro w2 hw2 _
          injection hw2 with hw3
          subst hw3
          refine ⟨?_, sub_nonneg.mpr (not_lt.mp hins), ?_⟩
          · simp only [withdrawFromWallet, hw, if_neg hins, if_neg hmin]
            rw [lookup_map_update fs.wallets collectorId
              (fun v => { v with balance := w.balance - amount }), hw]
            rfl
          · refine ⟨{ id := "wt" ++ toString fs.nextId
                      walletId := collectorId
                      type := "withdraw"
                      amount := -amount
                      description := "Withdrawal to " ++ paymentMethod ++
                        " (" ++ phoneNumber ++ ")"
                      paymentMethod := some paymentMethod
                      phoneNumber := some phoneNumber
                      status := some "pending"
                      balanceAfter := w.balance - amount
                      createdAt := fs.now }, ?_, rfl, rfl, rfl, rfl⟩
            simp [withdrawFromWallet, hw, if_neg hins, if_neg hmin]

/-- Concrete Firestore state for the C10 witness: collector `c1` holds a
wallet with balance 100 GMD. -/
def fsC10 : FS :=
  { requests := []
    users := []
    wallets := [("c1", { balance := 100 })] }

/-- Claim C10 witness: withdrawing 50 GMD from a 100 GMD wallet succeeds and
leaves a balance of 50 GMD. -/
theorem withdrawFromWallet_spec_witness :
    (fsC10.wallets.lookup "c1" = some { balance := 100 } ∧
      (50 : ℚ) ≤ 100 ∧ (50 : ℚ) ≤ 50) ∧
    (withdrawFromWallet "c1" 50 "wave" "7000000" fsC10).1.success = true ∧
    (withdrawFromWallet "c1" 50 "wave" "7000000" fsC10).2.wallets.lookup
      "c1" = some { balance := 100 - 50 } :=
  ⟨⟨by decide, by norm_num, by norm_num⟩,
    (withdrawFromWallet_spec fsC10 "c1" 50 "wave" "7000000").1.mpr
      ⟨{ balance := 100 }, by decide, by norm_num, by norm_num⟩,
    ((withdrawFromWallet_spec fsC10 "c1" 50 "wave" "7000000").2.2
      { balance := 100 } (by decide)
      ((withdrawFromWallet_spec fsC10 "c1" 50 "wave" "7000000").1.mpr
        ⟨{ balance := 100 }, by decide, by norm_num, by norm_num⟩)).1⟩

/- ===== Matcher lemmas (for claims C2 and C7). ===== -/

lemma findNearestStep_no_loc (customer : GeoLocation) (c : Collector)
    (h : c.currentLocation = none) (acc : Option (Collector × ℝ)) :
    findNearestStep customer acc c = acc := by
  simp [findNearestStep, h]

lemma findNearestStep_first (customer : GeoLocation) (c : Collector)
    (loc : GeoLocation) (h : c.currentLocation = some loc) :
    findNearestStep customer none c =
      some (c, calculateDistance customer.lat customer.lng loc.lat loc.lng) := by
  simp [findNearestStep, h]

lemma findNearestStep_closer (customer : GeoLocation) (c : Collector)
    (loc : GeoLocation) (n : Collector) (nd : ℝ)
    (h : c.currentLocation = some loc)
    (hlt : calculateDistance customer.lat customer.lng loc.lat loc.lng < nd) :
    findNearestStep customer (some (n, nd)) c =
      some (c, calculateDistance customer.lat customer.lng loc.lat loc.lng) := by
  simp [findNearestStep, h, hlt]

lemma findNearestStep_keep (customer : GeoLocation) (c : Collector)
    (loc : GeoLocation) (n : Collector) (nd : ℝ)
    (h : c.currentLocation = some loc)
    (hge : ¬ calculateDistance customer.lat customer.lng loc.lat loc.lng < nd) :
    findNearestStep customer (some (n, nd)) c = some (n, nd) := by
  simp [findNearestStep, h, hge]

/-- Invariant of the `findNearestCollector` fold: the result originates from
the accumulator or from a located list element at its own distance, it is at
most every located list element's distance, and it never exceeds the
accumulator's distance. -/
lemma findNearest_foldl_spec (customer : GeoLocation) :
    ∀ (l : List Collector) (acc : Option (Collector × ℝ)),
      (∀ p, l.foldl (findNearestStep customer) acc = some p →
        acc = some p ∨ ∃ c ∈ l, ∃ loc, c.currentLocation = some loc ∧
          p = (c, calculateDistance customer.lat customer.lng
            loc.lat loc.lng)) ∧
      (∀ c ∈ l, ∀ loc, c.currentLocation = some loc →
        ∃ p, l.foldl (findNearestStep customer) acc = some p ∧
          p.2 ≤ calculateDistance customer.lat customer.lng
            loc.lat loc.lng) ∧
      (∀ p0, acc = some p0 →
        ∃ p, l.foldl (findNearestStep customer) acc = some p ∧
          p.2 ≤ p0.2) := by
  intro l
  induction l with
  | nil =>
    intro acc
    refine ⟨fun p h => Or.inl h, ?_, ?_⟩
    · intro c hc
      cases hc
    · intro p0 h
      exact ⟨p0, h, le_refl _⟩
  | cons c l ih =>
    intro acc
    simp only [List.foldl_cons]
    rcases hcl : c.currentLocation with _ | loc
    · rw [findNearestStep_no_loc customer c hcl acc]
      obtain ⟨ihA, ihB, ihC⟩ := ih acc
      refine ⟨?_, ?_, ihC⟩
      · intro p h
        rcases ihA p h with h1 | ⟨c1, hc1, loc1, hl1, hp⟩
        · exact Or.inl h1
        · exact Or.inr ⟨c1, List.mem_cons_of_mem _ hc1, loc1, hl1, hp⟩
      · intro c1 hc1 loc1 hl1
        rcases List.mem_cons.mp hc1 with rfl | hmem
        · rw [hcl] at hl1
          cases hl1
        · exact ihB c1 hmem loc1 hl1
    · rcases acc with _ | ⟨n, nd⟩
      · rw [findNearestStep_first customer c loc hcl]
        obtain ⟨ihA, ihB, ihC⟩ :=
          ih (some (c, calculateDistance customer.lat customer.lng
            loc.lat loc.lng))
        refine ⟨?_, ?_, ?_⟩
        · intro p h
          rcases ihA p h with h1 | ⟨c1, hc1, loc1, hl1, hp⟩
          · exact Or.inr ⟨c, List.mem_cons_self c l, loc, hcl,
              (Option.some.inj h1).symm⟩
          · exact Or.inr ⟨c1, List.mem_cons_of_mem _ hc1, loc1, hl1, hp⟩
        · intro c1 hc1 loc1 hl1
          rcases List.mem_cons.mp hc1 with rfl | hmem
          · rw [hcl] at hl1
            injection hl1 with hl2
            subst hl2
            exact ihC _ rfl
          · exact ihB c1 hmem loc1 hl1
        · intro p0 h0
          cases h0
      · by_cases hlt : calculateDistance customer.lat customer.lng
          loc.lat loc.lng < nd
        · rw [findNearestStep_closer customer c loc n nd hcl hlt]
          obtain ⟨ihA, ihB, ihC⟩ :=
            ih (some (c, calculateDistance customer.lat customer.lng
              loc.lat loc.lng))
          refine ⟨?_, ?_, ?_⟩
          · intro p h
            rcases ihA p h with h1 | ⟨c1, hc1, loc1, hl1, hp⟩
            · exact Or.inr ⟨c, List.mem_cons_self c l, loc, hcl,
                (Option.some.inj h1).symm⟩
            · exact Or.inr ⟨c1, List.mem_cons_of_mem _ hc1, loc1, hl1, hp⟩
          · intro c1 hc1 loc1 hl1
            rcases List.mem_cons.mp hc1 with rfl | hmem
            · rw [hcl] at hl1
              injection hl1 with hl2
              subst hl2
              exact ihC _ rfl
            · exact ihB c1 hmem loc1 hl1
          · intro p0 h0
            obtain ⟨p, hp, hple⟩ := ihC _ rfl
            refine ⟨p, hp, ?_⟩
            have h0d : p0.2 = nd := by
              rw [← Option.some.inj h0]
            rw [h0d]
            exact le_trans hple (le_of_lt hlt)
        · rw [findNearestStep_keep customer c loc n nd hcl hlt]
          obtain ⟨ihA, ihB, ihC⟩ := ih (some (n, nd))
          refine ⟨?_, ?_, ?_⟩
          · intro p h
            rcases ihA p h with h1 | ⟨c1, hc1, loc1, hl1, hp⟩
            · exact Or.inl h1
            · exact Or.inr ⟨c1, List.mem_cons_of_mem _ hc1, loc1, hl1, hp⟩
          · intro c1 hc1 loc1 hl1
            rcases List.mem_cons.mp hc1 with rfl | hmem
            · rw [hcl] at hl1
              injection hl1 with hl2
              subst hl2
              obtain ⟨p, hp, hple⟩ := ihC _ rfl
              exact ⟨p, hp, le_trans hple (not_lt.mp hlt)⟩
            · exact ihB c1 hmem loc1 hl1
          · intro p0 h0
            obtain ⟨p, hp, hple⟩ := ihC _ rfl
            refine ⟨p, hp, ?_⟩
            have h0d : p0.2 = nd := by
              rw [← Option.some.inj h0]
            rw [h0d]
            exact hple

/-- Membership in the `getAvailableCollectors` query output yields the three
filter facts. -/
lemma mem_getAvailableCollectors (wasteType : WasteType)
    (users : List Collector) (c : Collector)
    (h : c ∈ getAvailableCollectors wasteType users) :
    c.role = Role.collector ∧ c.isAvailable = true ∧
      wasteType ∈ c.wasteTypesHandled := by
  have h2 := (List.mem_filter.mp h).2
  simp only [Bool.and_eq_true, beq_iff_eq] at h2
  obtain ⟨⟨hrole, havail⟩, hcont⟩ := h2
  refine ⟨hrole, havail, ?_⟩
  exact List.elem_iff.mp hcont

/- ===== Claim C2 ===== -/

/-- Claim C2: whenever at least one eligible collector exists (available,
handles the waste type, location reported), `findNearestCollector` returns an
eligible collector at its own haversine distance, and that distance is at
most every other eligible collector's distance; in particular a collector
that does not handle the waste type is never selected, even when closer,
since the selection is drawn from the `getAvailableCollectors` filter. -/
theorem findNearestCollector_min (customer : GeoLocation)
    (wasteType : WasteType) (users : List Collector)
    (c0 : Collector) (loc0 : GeoLocation)
    (hc0 : c0 ∈ getAvailableCollectors wasteType users)
    (hloc0 : c0.currentLocation = some loc0) :
    ∃ c d loc, findNearestCollector customer wasteType users = some (c, d) ∧
      c ∈ getAvailableCollectors wasteType users ∧
      c.isAvailable = true ∧ wasteType ∈ c.wasteTypesHandled ∧
      c.currentLocation = some loc ∧
      d = calculateDistance customer.lat customer.lng loc.lat loc.lng ∧
      ∀ c1 ∈ getAvailableCollectors wasteType users, ∀ loc1,
        c1.currentLocation = some loc1 →
          d ≤ calculateDistance customer.lat customer.lng
            loc1.lat loc1.lng := by
  have hne : (getAvailableCollectors wasteType users).length ≠ 0 := by
    intro h
    rw [List.length_eq_zero] at h
    rw [h] at hc0
    cases hc0
  obtain ⟨hA, hB, _⟩ := findNearest_foldl_spec customer
    (getAvailableCollectors wasteType users) none
  obtain ⟨p, hp, _⟩ := hB c0 hc0 loc0 hloc0
  rcases hA p hp with h1 | ⟨c, hc, loc, hl, rfl⟩
  · cases h1
  · obtain ⟨_, havail, hhandles⟩ :=
      mem_getAvailableCollectors wasteType users c hc
    refine ⟨c, _, loc, ?_, hc, havail, hhandles, hl, rfl, ?_⟩
    · unfold findNearestCollector
      rw [if_neg hne]
      exact hp
    · intro c1 hc1 loc1 hl1
      obtain ⟨p1, hp1, hle1⟩ := hB c1 hc1 loc1 hl1
      rw [hp] at hp1
      rw [← Option.some.inj hp1] at hle1
      exact hle1

/-- The pickup location of the C2 witness scenario from the specification. -/
def custC2 : GeoLocation := { lat := 13.4549, lng := -16.5790 }

/-- The eligible collector of the C2 witness scenario: handles `electronic`,
located at (13.46, -16.58). -/
def eligC2 : Collector :=
  mkCollector "e1" [WasteType.electronic, WasteType.household] true
    (some { lat := 13.46, lng := -16.58 })

/-- The ineligible collector of the C2 witness scenario: handles only
`household` but is closer to the pickup point. -/
def inelC2 : Collector :=
  mkCollector "i1" [WasteType.household] true
    (some { lat := 13.4550, lng := -16.5791 })

/-- Claim C2 witness: in the specification's scenario the eligible collector
is a member of the filtered candidate list with a reported location, so an
optimal eligible collector is returned. -/
theorem findNearestCollector_min_witness :
    (eligC2 ∈ getAvailableCollectors WasteType.electronic [inelC2, eligC2] ∧
      eligC2.currentLocation = some { lat := 13.46, lng := -16.58 }) ∧
    (∃ c d loc, findNearestCollector custC2 WasteType.electronic
        [inelC2, eligC2] = some (c, d) ∧
      c ∈ getAvailableCollectors WasteType.electronic [inelC2, eligC2] ∧
      c.isAvailable = true ∧ WasteType.electronic ∈ c.wasteTypesHandled ∧
      c.currentLocation = some loc ∧
      d = calculateDistance custC2.lat custC2.lng loc.lat loc.lng ∧
      ∀ c1 ∈ getAvailableCollectors WasteType.electronic [inelC2, eligC2],
        ∀ loc1, c1.currentLocation = some loc1 →
          d ≤ calculateDistance custC2.lat custC2.lng loc1.lat loc1.lng) :=
  ⟨⟨by simp [getAvailableCollectors, eligC2, inelC2, mkCollector], rfl⟩,
    findNearestCollector_min custC2 WasteType.electronic [inelC2, eligC2]
      eligC2 { lat := 13.46, lng := -16.58 }
      (by simp [getAvailableCollectors, eligC2, inelC2, mkCollector]) rfl⟩

/- ===== Claim C7 ===== -/

/-- Claim C7 (amended): on a bit-for-bit distance tie the strict `<`
comparison never replaces the incumbent, so `findNearestCollector` keeps the
first-traversed of two equidistant eligible candidates — the selection
depends on traversal order and there is no lowest-id tie-break. -/
theorem findNearestCollector_first_wins (customer : GeoLocation)
    (wasteType : WasteType) (c1 c2 : Collector) (loc1 loc2 : GeoLocation)
    (hfilter : getAvailableCollectors wasteType [c1, c2] = [c1, c2])
    (hl1 : c1.currentLocation = some loc1)
    (hl2 : c2.currentLocation = some loc2)
    (heq : calculateDistance customer.lat customer.lng loc2.lat loc2.lng =
      calculateDistance customer.lat customer.lng loc1.lat loc1.lng) :
    findNearestCollector customer wasteType [c1, c2] =
      some (c1, calculateDistance customer.lat customer.lng
        loc1.lat loc1.lng) := by
  unfold findNearestCollector
  rw [hfilter, if_neg (by simp)]
  simp only [List.foldl_cons, List.foldl_nil]
  rw [findNearestStep_first customer c1 loc1 hl1]
  rw [findNearestStep_keep customer c2 loc2 c1 _ hl2 (by simp [heq])]

/-- The shared location of the two equidistant collectors in the C7
example. -/
def locC7 : GeoLocation := { lat := 13.46, lng := -16.58 }

/-- The first-traversed collector of the C7 example (id `b`). -/
def cbC7 : Collector := mkCollector "b" [WasteType.household] true (some locC7)

/-- The second-traversed collector of the C7 example (id `a`, the lower
id). -/
def caC7 : Collector := mkCollector "a" [WasteType.household] true (some locC7)

/-- The customer location of the C7 example. -/
def custC7 : GeoLocation := { lat := 13.4549, lng := -16.579 }

/-- Claim C7 counterexample: two eligible collectors at the identical
location (hence bit-for-bit equal distances): traversed as `[b, a]` the
matcher returns id `b`, traversed as `[a, b]` it returns id `a` — the
selection depends on the traversal order and is not the lowest id, so the
claimed deterministic lowest-id tie-break is false. -/
theorem findNearestCollector_tiebreak_cx :
    (findNearestCollector custC7 WasteType.household [cbC7, caC7]).map
        (fun p => p.1.id) = some "b" ∧
      (findNearestCollector custC7 WasteType.household [caC7, cbC7]).map
        (fun p => p.1.id) = some "a" ∧
      cbC7.id = "b" ∧ caC7.id = "a" ∧ ("b" : String) ≠ "a" ∧
      cbC7.currentLocation = caC7.currentLocation := by
  refine ⟨?_, ?_, rfl, rfl, by decide, rfl⟩
  · unfold findNearestCollector
    rw [show getAvailableCollectors WasteType.household [cbC7, caC7] =
        [cbC7, caC7] from by
      simp [getAvailableCollectors, cbC7, caC7, mkCollector]]
    rw [if_neg (by simp)]
    simp only [List.foldl_cons, List.foldl_nil]
    rw [findNearestStep_first custC7 cbC7 locC7 rfl]
    rw [findNearestStep_keep custC7 caC7 locC7 cbC7 _ rfl (lt_irrefl _)]
    rfl
  · unfold findNearestCollector
    rw [show getAvailableCollectors WasteType.household [caC7, cbC7] =
        [caC7, cbC7] from by
      simp [getAvailableCollectors, cbC7, caC7, mkCollector]]
    rw [if_neg (by simp)]
    simp only [List.foldl_cons, List.foldl_nil]
    rw [findNearestStep_first custC7 caC7 locC7 rfl]
    rw [findNearestStep_keep custC7 cbC7 locC7 caC7 _ rfl (lt_irrefl _)]
    rfl

/-- Claim C7 witness: the amended theorem applied to the concrete equidistant
pair — the first-traversed collector `b` is returned. -/
theorem findNearestCollector_first_wins_witness :
    (getAvailableCollectors WasteType.household [cbC7, caC7] =
        [cbC7, caC7] ∧
      cbC7.currentLocation = some locC7 ∧
      caC7.currentLocation = some locC7) ∧
    findNearestCollector custC7 WasteType.household [cbC7, caC7] =
      some (cbC7, calculateDistance custC7.lat custC7.lng
        locC7.lat locC7.lng) :=
  ⟨⟨by simp [getAvailableCollectors, cbC7, caC7, mkCollector], rfl, rfl⟩,
    findNearestCollector_first_wins custC7 WasteType.household cbC7 caC7
      locC7 locC7
      (by simp [getAvailableCollectors, cbC7, caC7, mkCollector])
      rfl rfl rfl⟩

/- ===== Claim C6 ===== -/

/-- Claim C6 (amended): calling `retryMatch` on a request that exists but is
no longer `pending` performs no mutation and creates no second assignment,
but it returns a failure result carrying the error "Request not found or
already processed" — not the job's current state. -/
theorem retryMatch_nonpending_noop (fs : FS) (requestId : String)
    (maxRetries retryDelayMs : ℕ) (request : PickupRequest)
    (hreq : getPickupRequest requestId fs = some request)
    (hstat : request.status ≠ RequestStatus.pending) :
    retryMatch requestId maxRetries retryDelayMs fs =
      ({ success := false
         error := some "Request not found or already processed" }, fs) := by
  simp [retryMatch, hreq, hstat]

/-- The already-assigned request of the C6 example. -/
def reqC6 : PickupRequest :=
  { id := "r1"
    customerId := "cust1"
    wasteType := WasteType.household
    pickupLocation := { lat := 0, lng := 0 }
    status := RequestStatus.assigned
    collectorId := some "c9" }

/-- Concrete Firestore state for the C6 example: the request is already
assigned, and another collector is available. -/
def fsC6 : FS :=
  { requests := [reqC6]
    users := [mkCollector "c2" [WasteType.household] true
      (some { lat := 0, lng := 0 })] }

/-- Claim C6 counterexample: a second `retryMatch` call on the
already-assigned request mutates nothing, but it returns a failure result
with an error message — it does not return the job's current state. -/
theorem retryMatch_nonpending_error_cx :
    (retryMatch "r1" 3 30000 fsC6).1.success = false ∧
      (retryMatch "r1" 3 30000 fsC6).1.error =
        some "Request not found or already processed" ∧
      (retryMatch "r1" 3 30000 fsC6).1.collector = none ∧
      (retryMatch "r1" 3 30000 fsC6).2 = fsC6 :=
  ⟨rfl, rfl, rfl, rfl⟩

/-- Claim C6 witness: the amended theorem applied to the concrete assigned
request. -/
theorem retryMatch_nonpending_noop_witness :
    (getPickupRequest "r1" fsC6 = some reqC6 ∧
      reqC6.status ≠ RequestStatus.pending) ∧
    retryMatch "r1" 3 30000 fsC6 =
      ({ success := false
         error := some "Request not found or already processed" }, fsC6) :=
  ⟨⟨rfl, by decide⟩,
    retryMatch_nonpending_noop fsC6 "r1" 3 30000 reqC6 rfl (by decide)⟩

/- ===== Claim C3 ===== -/

lemma autoMatchCollector_payments (requestId : String)
    (customerLocation : GeoLocation) (wasteType : WasteType) (fs : FS)
    (ps : List Payment) :
    autoMatchCollector requestId customerLocation wasteType
        { fs with payments := ps } =
      ((autoMatchCollector requestId customerLocation wasteType fs).1,
        { (autoMatchCollector requestId customerLocation wasteType fs).2 with
          payments := ps }) := by
  unfold autoMatchCollector
  have husers : ({ fs with payments := ps } : FS).users = fs.users := rfl
  rw [husers]
  cases h : findNearestCollector customerLocation wasteType fs.users with
  | none => rfl
  | some p => rfl

/-- One-step unfolding of the `retryMatch` loop. -/
lemma retryAttempts_succ (requestId : String) (pickupLocation : GeoLocation)
    (wasteType : WasteType) (retryDelayMs n : ℕ) (fs : FS) :
    retryAttempts requestId pickupLocation wasteType retryDelayMs
        (n + 1) fs =
      (let step := autoMatchCollector requestId pickupLocation wasteType fs
       if step.1.success then (some step.1, step.2, 1, [])
       else if n = 0 then (none, step.2, 1, [])
       else
         let rest := retryAttempts requestId pickupLocation wasteType
           retryDelayMs n step.2
         (rest.1, rest.2.1, rest.2.2.1 + 1, retryDelayMs :: rest.2.2.2)) :=
  rfl

set_option maxRecDepth 8000 in
lemma retryAttempts_payments (requestId : String)
    (pickupLocation : GeoLocation) (wasteType : WasteType)
    (retryDelayMs : ℕ) :
    ∀ (n : ℕ) (fs : FS) (ps : List Payment),
      retryAttempts requestId pickupLocation wasteType retryDelayMs n
          { fs with payments := ps } =
        ((retryAttempts requestId pickupLocation wasteType retryDelayMs
            n fs).1,
          { (retryAttempts requestId pickupLocation wasteType retryDelayMs
              n fs).2.1 with payments := ps },
          (retryAttempts requestId pickupLocation wasteType retryDelayMs
            n fs).2.2.1,
          (retryAttempts requestId pickupLocation wasteType retryDelayMs
            n fs).2.2.2) := by
  intro n
  induction n with
  | zero =>
    intro fs ps
    rfl
  | succ n ih =>
    intro fs ps
    rw [retryAttempts_succ, retryAttempts_succ]
    simp only [autoMatchCollector_payments requestId pickupLocation
      wasteType fs ps]
    by_cases hs : (autoMatchCollector requestId pickupLocation wasteType
        fs).1.success = true
    · simp [hs]
    · by_cases hn : n = 0
      · subst hn
        simp [hs]
      · simp only [hs, hn]
        simp only [Bool.false_eq_true, if_false, ite_false]
        rw [ih]

/-- Claim C3 (amended): `retryMatch` never consults payment state: its
result and its effect on every non-payment component of the store are
identical whatever the `payments` collection contains.  (Combined with the
counterexample, a `pending` request is dispatched even when no payment
record exists at all; the only precondition checked is existence and
`pending` status, with the "Request not found or already processed" failure
otherwise — there is no `NotDispatchable`-style payment guard.) -/
theorem retryMatch_ignores_payments (fs : FS) (ps : List Payment)
    (requestId : String) (maxRetries retryDelayMs : ℕ) :
    retryMatch requestId maxRetries retryDelayMs
        { fs with payments := ps } =
      ((retryMatch requestId maxRetries retryDelayMs fs).1,
        { (retryMatch requestId maxRetries retryDelayMs fs).2 with
          payments := ps }) := by
  have h0 : getPickupRequest requestId { fs with payments := ps } =
      getPickupRequest requestId fs := rfl
  have hupd : ∀ (x : FS),
      updateRequestStatus requestId RequestStatus.cancelled
          (some "No collectors available after multiple attempts")
          { x with payments := ps } =
        { updateRequestStatus requestId RequestStatus.cancelled
            (some "No collectors available after multiple attempts") x with
          payments := ps } := fun _ => rfl
  cases hr : getPickupRequest requestId fs with
  | none => simp [retryMatch, h0, hr]
  | some request =>
    cases hst : request.status == RequestStatus.pending with
    | false => simp [retryMatch, h0, hr, hst]
    | true =>
      simp only [retryMatch, h0, hr, hst, if_true,
        retryAttempts_payments requestId request.pickupLocation
          request.wasteType retryDelayMs maxRetries fs ps]
      cases hrun : (retryAttempts requestId request.pickupLocation
          request.wasteType retryDelayMs maxRetries fs).1 with
      | none => simp [hrun, hupd]
      | some m => simp [hrun]

/-- The pending request of the C3 example. -/
def reqC3 : PickupRequest :=
  { id := "r1"
    customerId := "cust1"
    wasteType := WasteType.household
    pickupLocation := { lat := 0, lng := 0 }
    status := RequestStatus.pending }

/-- Concrete Firestore state for the C3 example: a pending request with no
payment record at all, and one eligible collector. -/
def fsC3 : FS :=
  { requests := [reqC3]
    users := [mkCollector "c1" [WasteType.household] true
      (some { lat := 0, lng := 0 })]
    payments := [] }

/-- Claim C3 counterexample: the request is `pending` with an empty
`payments` collection (no payment confirmed anywhere), yet `retryMatch`
dispatches it: the call succeeds, the request becomes `assigned` to the
collector, and the collector is marked busy — no `NotDispatchable` failure
occurs. -/
theorem retryMatch_dispatches_unpaid_cx :
    fsC3.payments = [] ∧
      (retryMatch "r1" 3 30000 fsC3).1.success = true ∧
      (retryMatch "r1" 3 30000 fsC3).2.requests.map
        (fun r => (r.status, r.collectorId)) =
        [(RequestStatus.assigned, some "c1")] ∧
      (retryMatch "r1" 3 30000 fsC3).2.users.map
        (fun u => (u.isAvailable, u.currentRequestId)) =
        [(false, some "r1")] :=
  ⟨rfl, rfl, rfl, rfl⟩

/- ===== Claim C4 ===== -/

lemma foldl_none_of_all_none (customerLocation : GeoLocation) :
    ∀ (l : List Collector), (∀ c ∈ l, c.currentLocation = none) →
      l.foldl (findNearestStep customerLocation) none = none := by
  intro l
  induction l with
  | nil =>
    intro _
    rfl
  | cons c t ih =>
    intro hall
    rw [List.foldl_cons, findNearestStep_no_loc customerLocation c
      (hall c (List.mem_cons_self c t)) none]
    exact ih (fun x hx => hall x (List.mem_cons_of_mem _ hx))

/-- With no eligible located collector, one matching attempt fails with the
transient error and leaves the store unchanged. -/
lemma autoMatchCollector_no_eligible (requestId : String)
    (customerLocation : GeoLocation) (wasteType : WasteType) (fs : FS)
    (h : ∀ c ∈ getAvailableCollectors wasteType fs.users,
      c.currentLocation = none) :
    autoMatchCollector requestId customerLocation wasteType fs =
      ({ success := false
         error := some "No collectors available for this waste type right now" },
        fs) := by
  have hnone : findNearestCollector customerLocation wasteType fs.users =
      none := by
    unfold findNearestCollector
    by_cases hlen : (getAvailableCollectors wasteType fs.users).length = 0
    · rw [if_pos hlen]
    · rw [if_neg hlen]
      exact foldl_none_of_all_none customerLocation _ h
  unfold autoMatchCollector
  rw [hnone]

/-- With no eligible located collector, the retry loop performs exactly
`n + 1` matching attempts, waits `n` times the configured delay, reports no
match, and leaves the store unchanged. -/
lemma retryAttempts_no_eligible (requestId : String)
    (pickupLocation : GeoLocation) (wasteType : WasteType)
    (retryDelayMs : ℕ) :
    ∀ (n : ℕ) (fs : FS),
      (∀ c ∈ getAvailableCollectors wasteType fs.users,
        c.currentLocation = none) →
      retryAttempts requestId pickupLocation wasteType retryDelayMs
          (n + 1) fs =
        (none, fs, n + 1, List.replicate n retryDelayMs) := by
  intro n
  induction n with
  | zero =>
    intro fs h
    rw [retryAttempts_succ]
    simp [autoMatchCollector_no_eligible requestId pickupLocation wasteType
      fs h]
  | succ n ih =>
    intro fs h
    rw [retryAttempts_succ]
    simp only [autoMatchCollector_no_eligible requestId pickupLocation
      wasteType fs h]
    simp only [Nat.succ_ne_zero, if_false, ite_false]
    rw [ih fs h]
    simp [List.replicate_succ]

/-- Claim C4 (amended): for a pending request with zero eligible located
collectors, `retryMatch` performs exactly `maxRetries` matching attempts
(reference call sites pass 3) with `maxRetries - 1` recorded waits of
`retryDelayMs` (reference 30000 ms) between consecutive attempts, then
cancels the request with reason "No collectors available after multiple
attempts" and reports failure "No collectors available. Please try again
later." to the caller. -/
theorem retryMatch_exhausts_attempts (fs : FS) (requestId : String)
    (maxRetries retryDelayMs : ℕ) (request : PickupRequest)
    (hm : 1 ≤ maxRetries)
    (hreq : getPickupRequest requestId fs = some request)
    (hstat : request.status = RequestStatus.pending)
    (helig : ∀ c ∈ getAvailableCollectors request.wasteType fs.users,
      c.currentLocation = none) :
    (retryAttempts requestId request.pickupLocation request.wasteType
        retryDelayMs maxRetries fs).2.2.1 = maxRetries ∧
    (retryAttempts requestId request.pickupLocation request.wasteType
        retryDelayMs maxRetries fs).2.2.2 =
      List.replicate (maxRetries - 1) retryDelayMs ∧
    retryMatch requestId maxRetries retryDelayMs fs =
      ({ success := false
         error := some "No collectors available. Please try again later." },
        updateRequestStatus requestId RequestStatus.cancelled
          (some "No collectors available after multiple attempts") fs) := by
  obtain ⟨k, rfl⟩ : ∃ k, maxRetries = k + 1 :=
    ⟨maxRetries - 1, (Nat.succ_pred_eq_of_pos hm).symm⟩
  have hrun := retryAttempts_no_eligible requestId request.pickupLocation
    request.wasteType retryDelayMs k fs helig
  refine ⟨by rw [hrun], by rw [hrun]; simp, ?_⟩
  simp [retryMatch, hreq, hstat, hrun]

/-- The pending request of the C4 example. -/
def reqC4 : PickupRequest :=
  { id := "r1"
    customerId := "cust1"
    wasteType := WasteType.household
    pickupLocation := { lat := 0, lng := 0 }
    status := RequestStatus.pending }

/-- Concrete Firestore state for the C4 example: a pending request and no
collectors at all. -/
def fsC4 : FS :=
  { requests := [reqC4]
    users := [] }

/-- Claim C4 counterexample: after the attempts are exhausted the request is
cancelled with reason "No collectors available after multiple attempts" and
the caller receives "No collectors available. Please try again later." — the
cancel reason is not the claimed string "no collectors available". -/
theorem retryMatch_cancelReason_cx :
    (retryMatch "r1" 3 30000 fsC4).2.requests.map
        (fun r => (r.status, r.cancelReason)) =
      [(RequestStatus.cancelled,
        some "No collectors available after multiple attempts")] ∧
      (retryMatch "r1" 3 30000 fsC4).1.success = false ∧
      (retryMatch "r1" 3 30000 fsC4).1.error =
        some "No collectors available. Please try again later." ∧
      some "No collectors available after multiple attempts" ≠
        some "no collectors available" :=
  ⟨rfl, rfl, rfl, by decide⟩

/-- Claim C4 witness: the amended theorem applied to the concrete pending
request with an empty collector pool and the reference configuration
(3 attempts, 30000 ms delay): exactly 3 attempts, 2 recorded waits. -/
theorem retryMatch_exhausts_attempts_witness :
    ((1 ≤ 3) ∧ getPickupRequest "r1" fsC4 = some reqC4 ∧
      reqC4.status = RequestStatus.pending) ∧
    (retryAttempts "r1" reqC4.pickupLocation reqC4.wasteType 30000 3
        fsC4).2.2.1 = 3 ∧
    (retryAttempts "r1" reqC4.pickupLocation reqC4.wasteType 30000 3
        fsC4).2.2.2 = List.replicate 2 30000 :=
  ⟨⟨by decide, rfl, rfl⟩,
    (retryMatch_exhausts_attempts fsC4 "r1" 3 30000 reqC4 (by decide) rfl
      rfl (fun c hc => absurd hc (List.not_mem_nil c))).1,
    (retryMatch_exhausts_attempts fsC4 "r1" 3 30000 reqC4 (by decide) rfl
      rfl (fun c hc => absurd hc (List.not_mem_nil c))).2.1⟩

/- ===== Claim C9 ===== -/

/-- The active job of the C9 example: amount 100 GMD, assigned to collector
`c1`, in progress. -/
def jobC9 : RealtimeJob := mkJob "j1" JobStatus.in_progress 100 (some "c1")

/-- The realtime database of the C9 example: collector `c1` is busy with
job `j1`. -/
def dbC9 : RTDB :=
  { jobs := [jobC9]
    activeJob := fun c => if c == "c1" then some "j1" else none }

/-- The Firestore state of the C9 example: collector `c1` has a persistent
wallet with balance 0. -/
def fsC9 : FS :=
  { requests := []
    users := []
    wallets := [("c1", { balance := 0 })] }

/-- The dashboard state of the C9 example. -/
def stC9 : DashboardState :=
  { rtdb := dbC9
    fs := fsC9
    walletBalance := 0
    activeJob := some jobC9 }

/-- Claim C9: completing the 100 GMD job does mark the job `completed` and
set `collectors/c1/activeJob` to null, and it bumps the in-memory
`walletBalance` display state by the job amount exactly once — but the
persistent wallet (`wallets/c1`, the document `getWalletBalance` reads and
`withdrawFromWallet` debits) is untouched: `handleCompleteJob` invokes no
Firestore operation, and `creditWallet` has no caller anywhere in the
repository, so the credit as specified never happens. -/
theorem handleCompleteJob_no_persistent_credit :
    (handleCompleteJob "c1" stC9).fs = stC9.fs ∧
      (handleCompleteJob "c1" stC9).fs.wallets.lookup "c1" =
        some { balance := 0 } ∧
      (handleCompleteJob "c1" stC9).walletBalance =
        stC9.walletBalance + 100 ∧
      (handleCompleteJob "c1" stC9).rtdb.activeJob "c1" = none ∧
      (handleCompleteJob "c1" stC9).rtdb.jobs.map (fun j => j.status) =
        [JobStatus.completed] ∧
      (handleCompleteJob "c1" stC9).activeJob = none :=
  ⟨rfl, rfl, rfl, rfl, rfl, rfl⟩

end Mbalit
